import Mathlib

/-!
Verification of the genvfs code generator (libwasi/genvfs.py).

The generator reads a definition file, strips line breaks, splits the
buffer on semicolons into statements, parses each statement into a
function name and argument fragments, and emits four kinds of C
artifacts.  The definitions below are a shallow embedding of that
script: Python string operations are modelled at the character-list
level, Python exceptions are modelled as `Option String` error
components carrying the exception message, and printed output is
modelled as the list of printed strings (one element per `print` call),
kept even when a later statement raises, exactly as the buffered file
contents survive an exception inside the `with open(...)` block.
-/

namespace Genvfs

/-- Characters stripped by Python `str.strip()` on ASCII input. -/
def isPySpace (c : Char) : Bool :=
  c = ' ' || c = '\t' || c = '\n' || c = '\r' || c.toNat = 11 || c.toNat = 12

/-- Python `s.strip()`. -/
def pythonStrip (s : String) : String :=
  String.mk (((s.toList.dropWhile isPySpace).reverse.dropWhile isPySpace).reverse)

/-- Splitting a character list on every occurrence of a separator
character, keeping empty pieces, as Python `str.split(sep)` does for a
one-character separator. -/
def splitOnChar (sep : Char) : List Char → List (List Char)
  | [] => [[]]
  | c :: cs =>
    if c = sep then [] :: splitOnChar sep cs
    else
      match splitOnChar sep cs with
      | [] => [[c]]
      | h :: t => (c :: h) :: t

/-- Python `s.split(sep)` for a one-character separator. -/
def pySplit (sep : Char) (s : String) : List String :=
  (splitOnChar sep s.toList).map String.mk

def isLowerAz (c : Char) : Bool := 'a' ≤ c && c ≤ 'z'

def isNameChar (c : Char) : Bool := isLowerAz c || c = '_' || ('0' ≤ c && c ≤ '9')

/-- Python `re.search("[a-z][_a-z0-9]*$", s)`, returning the matched
text: the leftmost position whose suffix is a lower-case letter
followed only by name characters up to the end of the string. -/
def nameSearch (s : String) : Option String :=
  let suf := ((s.toList.reverse.takeWhile isNameChar).reverse).dropWhile (fun c => !isLowerAz c)
  if suf.isEmpty then none else some (String.mk suf)

def pathInfoLit : List Char := "struct path_info *".toList

/-- Scan for the literal `struct path_info *` followed by a trailing
identifier reaching the end of the string, returning the captured
identifier of the leftmost successful match, as
`re.search("struct path_info \\*([a-z][_a-z0-9]*$)", s)` does. -/
def pathInfoAux : List Char → Option (List Char)
  | [] => none
  | c :: cs =>
    if pathInfoLit.isPrefixOf (c :: cs) then
      match (c :: cs).drop 18 with
      | [] => pathInfoAux cs
      | rc :: rest =>
        if isLowerAz rc && (rc :: rest).all isNameChar then some (rc :: rest)
        else pathInfoAux cs
    else pathInfoAux cs

/-- Python `re_path_info.search(s)` with `m.group(1)`. -/
def pathInfoSearch (s : String) : Option String :=
  (pathInfoAux s.toList).map String.mk

/-- Message of the ValueError raised by `a, b = xs` on a short list. -/
def notEnoughMsg : String := "ValueError: not enough values to unpack (expected 2)"

/-- Message of the ValueError raised by `a, b = xs` on a long list. -/
def tooManyMsg : String := "ValueError: too many values to unpack (expected 2)"

/-- Message of the AttributeError raised by `None.group()`. -/
def attrErrMsg : String := "AttributeError: \x27NoneType\x27 object has no attribute \x27group\x27"

/-- Message of the IndexError raised by `[][0]`. -/
def indexErrMsg : String := "IndexError: list index out of range"

/-- Python tuple unpacking `a, b = parts` for a two-element target. -/
def unpack2 : List String → Except String (String × String)
  | [a, b] => .ok (a, b)
  | parts => .error (if parts.length < 2 then notEnoughMsg else tooManyMsg)

/-- The `args_name` loop of `process`: strip each fragment, extract its
trailing identifier, raising AttributeError at the first fragment with
no match. -/
def argsNames : List String → Except String (List String)
  | [] => .ok []
  | a :: rest =>
    match nameSearch (pythonStrip a) with
    | none => .error attrErrMsg
    | some n =>
      match argsNames rest with
      | .error e => .error e
      | .ok ns => .ok (n :: ns)

/-- Emission modes of the generator. -/
inductive Mode where
  | VfsPrototype
  | VfsStructDecl
  | VfsStructDefine
  | VfsDefine
deriving DecidableEq

/-- Parse result of one statement: function name, stripped argument
fragments, trailing identifiers, and path-info identifiers. -/
structure Sig where
  fn : String
  args_sig : List String
  args_name : List String
  path_info_arg : List String
deriving DecidableEq

/-- The per-statement parsing steps of `process` (source lines 35-50):
`line, _ = line.split(")")`, `fn, args = line.split("(")`,
`args = args.split(",")`, the `args_sig`, `args_name` and
`path_info_arg` loops.  The path-info search runs on the unstripped
fragment, exactly as in the source. -/
def parseStmt (line : String) : Except String Sig :=
  match unpack2 (pySplit ')' line) with
  | .error e => .error e
  | .ok (l1, _) =>
    match unpack2 (pySplit '(' l1) with
    | .error e => .error e
    | .ok (fn, argstr) =>
      let args := pySplit ',' argstr
      match argsNames args with
      | .error e => .error e
      | .ok ns => .ok ⟨fn, args.map pythonStrip, ns, args.filterMap pathInfoSearch⟩

/-- Python `', '.join l`. -/
def joinArgs : List String → String
  | [] => ""
  | [a] => a
  | a :: b :: rest => a ++ ", " ++ joinArgs (b :: rest)

/-- Python `fn.startswith("path_")`. -/
def startsWithPath (s : String) : Bool := "path_".toList.isPrefixOf s.toList

/-- The three printed lines of one cross-device guard. -/
def xdevGuard (ref a : String) : List String :=
  ["\tif (check_xdev(" ++ ref ++ ", " ++ a ++ ")) \x7b", "\t\treturn EXDEV;", "\t\x7d"]

/-- The mode dispatch of `process` for one parsed statement: the lines
it prints, and the IndexError raised by `path_info_arg[0]` when a
`path_`-named statement has no path-info argument (the signature line
and the opening brace are already printed at that point). -/
def emitSig (mode : Mode) (pre : String) (s : Sig) : List String × Option String :=
  match mode with
  | .VfsStructDecl => (["\tint (*" ++ s.fn ++ ")(" ++ joinArgs s.args_sig ++ ");"], none)
  | .VfsStructDefine => (["\t." ++ s.fn ++ " = " ++ pre ++ s.fn ++ ","], none)
  | .VfsPrototype => (["int " ++ pre ++ s.fn ++ "(" ++ joinArgs s.args_sig ++ ");"], none)
  | .VfsDefine =>
    if startsWithPath s.fn then
      match s.path_info_arg with
      | [] =>
        (["int\nwasi_vfs_" ++ s.fn ++ "(" ++ joinArgs s.args_sig ++ ")", "\x7b"],
         some indexErrMsg)
      | ref :: rest =>
        (["int\nwasi_vfs_" ++ s.fn ++ "(" ++ joinArgs s.args_sig ++ ")", "\x7b"] ++
           rest.flatMap (xdevGuard ref) ++
           ["\tconst struct wasi_vfs_ops *ops = path_vfs_ops(" ++ ref ++ ");",
            "\treturn ops->" ++ s.fn ++ "(" ++ joinArgs s.args_name ++ ");", "\x7d"],
         none)
    else
      (["int\nwasi_vfs_" ++ s.fn ++ "(" ++ joinArgs s.args_sig ++ ")", "\x7b",
        "\tconst struct wasi_vfs_ops *ops = fdinfo_vfs_ops(fdinfo);",
        "\treturn ops->" ++ s.fn ++ "(" ++ joinArgs s.args_name ++ ");", "\x7d"],
       none)

/-- Processing of one (already stripped, nonempty) statement. -/
def processStmt (mode : Mode) (pre : String) (line : String) : List String × Option String :=
  match parseStmt line with
  | .error e => ([], some e)
  | .ok s => emitSig mode pre s

/-- The `for line in lines` loop of `process`: empty statements are
skipped, output accumulates in order, and the first raised exception
stops the loop keeping everything printed so far. -/
def emitLoop (mode : Mode) (pre : String) : List String → List String × Option String
  | [] => ([], none)
  | l :: rest =>
    if pythonStrip l = "" then emitLoop mode pre rest
    else
      match processStmt mode pre (pythonStrip l) with
      | (out, some e) => (out, some e)
      | (out, none) =>
        let r := emitLoop mode pre rest
        (out ++ r.1, r.2)

/-- The fixed two-line header printed by every `process` call. -/
def headerLines : List String :=
  ["/* this file is generated by genvfs.sh */", "#include \"wasi_vfs_types.h\""]

/-- The wrapper line printed before the loop for the struct modes. -/
def modeOpen (mode : Mode) (pre qual : String) : List String :=
  match mode with
  | .VfsStructDecl => ["struct wasi_vfs_ops \x7b"]
  | .VfsStructDefine => [qual ++ " struct wasi_vfs_ops " ++ pre ++ "ops = \x7b"]
  | _ => []

/-- The wrapper line printed after the loop for the struct modes. -/
def modeClose (mode : Mode) : List String :=
  match mode with
  | .VfsStructDecl => ["\x7d;"]
  | .VfsStructDefine => ["\x7d;"]
  | _ => []

/-- The full `process(mode, out, prefix, qual)` call: lines printed to
`out` (partial when an exception is raised, the closing wrapper being
reached only on normal completion), and the exception if any. -/
def process (mode : Mode) (pre qual : String) (lns : List String) :
    List String × Option String :=
  let r := emitLoop mode pre lns
  (headerLines ++ modeOpen mode pre qual ++ r.1 ++
     (if r.2.isNone then modeClose mode else []),
   r.2)

/-- `content.replace("\n", "")`. -/
def stripNewlines (content : String) : String :=
  String.mk (content.toList.filter (fun c => c ≠ '\n'))

/-- The module-level `lines = content.replace("\n", "").split(";")`. -/
def linesOf (content : String) : List String := pySplit ';' (stripNewlines content)

def defaultPre : String := "wasi_vfs_"
def defaultQual : String := "static const"

/-- The module-level run: three `with open(...)` blocks in order.  Each
block creates its file before `process` runs; an exception terminates
the script, leaving the current file with whatever was printed into it
and never creating the later files.  Result: the created files with
their line contents, and whether the script finished normally. -/
def runGenerator (content : String) : List (String × List String) × Bool :=
  let lns := linesOf content
  let r1 := process Mode.VfsStructDecl defaultPre defaultQual lns
  if r1.2.isSome then ([("wasi_vfs_ops.h", r1.1)], false)
  else
    let r2 := process Mode.VfsPrototype defaultPre defaultQual lns
    if r2.2.isSome then ([("wasi_vfs_ops.h", r1.1), ("wasi_vfs.h", r2.1)], false)
    else
      let r3 := process Mode.VfsDefine defaultPre defaultQual lns
      ([("wasi_vfs_ops.h", r1.1), ("wasi_vfs.h", r2.1), ("wasi_vfs_dispatch.h", r3.1)],
       !r3.2.isSome)

/-- The raw comma-separated argument fragments of a statement, before
any whitespace stripping: the text the definition file itself carries
for each argument.  Obtained by the same two tuple unpackings as
`parseStmt`, stopping before the per-fragment processing. -/
def argFragments (line : String) : Option (List String) :=
  match unpack2 (pySplit ')' line) with
  | .error _ => none
  | .ok (l1, _) =>
    match unpack2 (pySplit '(' l1) with
    | .error _ => none
    | .ok (_, argstr) => some (pySplit ',' argstr)

/-- The nonempty stripped statements of a line list, in order: exactly
the statements the `process` loop does not skip. -/
def stmtsOf (lns : List String) : List String :=
  lns.filterMap (fun l => if pythonStrip l = "" then none else some (pythonStrip l))

/-- Whether one stripped statement parses without an exception. -/
def stmtOk (l : String) : Bool :=
  match parseStmt l with
  | .ok _ => true
  | .error _ => false

/-- The parsed function name of a stripped statement (dummy on parse
failure; only used under `allStmtsOk`). -/
def fnOf (l : String) : String :=
  match parseStmt l with
  | .ok s => s.fn
  | .error _ => ""

/-- Every statement of the list parses without an exception. -/
def allStmtsOk (lns : List String) : Bool := (stmtsOf lns).all stmtOk

/-- The per-statement parse results of a line list: the abstraction the
emission depends on (the signature sequence, with parse failures). -/
def parsedStmts (lns : List String) : List (Except String Sig) :=
  (stmtsOf lns).map parseStmt

/-- The emission loop expressed on parse results instead of raw
statement text. -/
def emitFromParsed (mode : Mode) (pre : String) :
    List (Except String Sig) → List String × Option String
  | [] => ([], none)
  | .error e :: _ => ([], some e)
  | .ok s :: rest =>
    match emitSig mode pre s with
    | (out, some e) => (out, some e)
    | (out, none) =>
      let r := emitFromParsed mode pre rest
      (out ++ r.1, r.2)

/-- Whether `pat` occurs as a contiguous subsequence of `l`. -/
def containsSeq (pat : List Char) : List Char → Bool
  | [] => pat.isEmpty
  | c :: cs => pat.isPrefixOf (c :: cs) || containsSeq pat cs

/-- The three output file names, in creation order. -/
def outputNames : List String := ["wasi_vfs_ops.h", "wasi_vfs.h", "wasi_vfs_dispatch.h"]

theorem stmtsOf_cons_empty {x : String} (hx : pythonStrip x = "") (rest : List String) :
    stmtsOf (x :: rest) = stmtsOf rest := by
  simp [stmtsOf, hx]

theorem stmtsOf_cons_ne {x : String} (hx : pythonStrip x ≠ "") (rest : List String) :
    stmtsOf (x :: rest) = pythonStrip x :: stmtsOf rest := by
  simp [stmtsOf, hx]

theorem stmtOk_ok {l : String} (h : stmtOk l = true) : ∃ s, parseStmt l = .ok s := by
  unfold stmtOk at h
  cases hp : parseStmt l with
  | error e => rw [hp] at h; simp at h
  | ok s => exact ⟨s, rfl⟩

theorem processStmt_define_pre (pre1 pre2 line : String) :
    processStmt Mode.VfsDefine pre1 line = processStmt Mode.VfsDefine pre2 line := by
  unfold processStmt
  cases parseStmt line with
  | error e => rfl
  | ok s => rfl

theorem emitLoop_define_pre (pre1 pre2 : String) (lns : List String) :
    emitLoop Mode.VfsDefine pre1 lns = emitLoop Mode.VfsDefine pre2 lns := by
  induction lns with
  | nil => rfl
  | cons l rest ih =>
    unfold emitLoop
    by_cases h : pythonStrip l = ""
    · simp [h, ih]
    · rw [if_neg h, if_neg h, processStmt_define_pre pre1 pre2]
      rcases hps : processStmt Mode.VfsDefine pre2 (pythonStrip l) with ⟨out, e⟩
      cases e with
      | none => simp [ih]
      | some err => simp

theorem emitLoop_eq_parsed (mode : Mode) (pre : String) (lns : List String) :
    emitLoop mode pre lns = emitFromParsed mode pre (parsedStmts lns) := by
  induction lns with
  | nil => rfl
  | cons x rest ih =>
    by_cases hx : pythonStrip x = ""
    · have hstep : parsedStmts (x :: rest) = parsedStmts rest := by
        simp [parsedStmts, stmtsOf_cons_empty hx]
      rw [hstep]
      unfold emitLoop
      rw [if_pos hx]
      exact ih
    · have hstep : parsedStmts (x :: rest) = parseStmt (pythonStrip x) :: parsedStmts rest := by
        simp [parsedStmts, stmtsOf_cons_ne hx]
      rw [hstep]
      unfold emitLoop
      rw [if_neg hx]
      cases hp : parseStmt (pythonStrip x) with
      | error e => simp [processStmt, hp, emitFromParsed]
      | ok s =>
        rcases he : emitSig mode pre s with ⟨out, e⟩
        cases e with
        | none => simp [processStmt, hp, he, emitFromParsed, ih]
        | some err => simp [processStmt, hp, he, emitFromParsed]

theorem argsNames_fail {args : List String} (h : ∃ a ∈ args, nameSearch (pythonStrip a) = none) :
    argsNames args = .error attrErrMsg := by
  induction args with
  | nil => simp at h
  | cons a rest ih =>
    rcases h with ⟨b, hb, hn⟩
    rcases List.mem_cons.mp hb with rfl | hbr
    · unfold argsNames
      rw [hn]
    · unfold argsNames
      cases hna : nameSearch (pythonStrip a) with
      | none => rfl
      | some n => rw [ih ⟨b, hbr, hn⟩]

theorem parseStmt_fail_of_badArg (line : String) (args : List String)
    (hargs : argFragments line = some args)
    (hbad : ∃ a ∈ args, nameSearch (pythonStrip a) = none) :
    parseStmt line = .error attrErrMsg := by
  unfold argFragments at hargs
  unfold parseStmt
  cases h1 : unpack2 (pySplit ')' line) with
  | error e => simp only [h1] at hargs; exact Option.noConfusion hargs
  | ok p1 =>
    rcases p1 with ⟨l1, r1⟩
    simp only [h1] at hargs ⊢
    cases h2 : unpack2 (pySplit '(' l1) with
    | error e => simp only [h2] at hargs; exact Option.noConfusion hargs
    | ok p2 =>
      rcases p2 with ⟨fn, argstr⟩
      simp only [h2] at hargs ⊢
      simp at hargs
      subst hargs
      rw [argsNames_fail hbad]

theorem emitLoop_fail_of_mem (mode : Mode) (pre : String) {lns : List String} {l : String}
    (hl : l ∈ lns) (hne : pythonStrip l ≠ "")
    (hf : (processStmt mode pre (pythonStrip l)).2.isSome = true) :
    (emitLoop mode pre lns).2.isSome = true := by
  induction lns with
  | nil => simp at hl
  | cons x rest ih =>
    rcases List.mem_cons.mp hl with rfl | hmem
    · unfold emitLoop
      rw [if_neg hne]
      rcases hps : processStmt mode pre (pythonStrip l) with ⟨out, e⟩
      cases e with
      | none => rw [hps] at hf; simp at hf
      | some err => simp
    · unfold emitLoop
      by_cases hx : pythonStrip x = ""
      · rw [if_pos hx]
        exact ih hmem
      · rw [if_neg hx]
        rcases hps : processStmt mode pre (pythonStrip x) with ⟨out, e⟩
        cases e with
        | none => simp [ih hmem]
        | some err => simp

theorem emitLoop_structDefine (pre : String) (lns : List String) (h : allStmtsOk lns = true) :
    emitLoop Mode.VfsStructDefine pre lns =
      ((stmtsOf lns).map (fun l => "\t." ++ fnOf l ++ " = " ++ pre ++ fnOf l ++ ","), none) := by
  induction lns with
  | nil => rfl
  | cons x rest ih =>
    by_cases hx : pythonStrip x = ""
    · have h' : allStmtsOk rest = true := by
        unfold allStmtsOk at h ⊢
        rwa [stmtsOf_cons_empty hx] at h
      rw [stmtsOf_cons_empty hx]
      unfold emitLoop
      rw [if_pos hx]
      exact ih h'
    · rw [allStmtsOk, stmtsOf_cons_ne hx, List.all_cons, Bool.and_eq_true] at h
      obtain ⟨s, hs⟩ := stmtOk_ok h.1
      unfold emitLoop
      rw [if_neg hx]
      have hps : processStmt Mode.VfsStructDefine pre (pythonStrip x) =
          (["\t." ++ s.fn ++ " = " ++ pre ++ s.fn ++ ","], none) := by
        simp [processStmt, hs, emitSig]
      rw [hps, ih h.2, stmtsOf_cons_ne hx]
      simp [fnOf, hs]

theorem parseStmt_args (line : String) (s : Sig) (hp : parseStmt line = .ok s) :
    ∃ raw, argFragments line = some raw ∧ s.args_sig = raw.map pythonStrip ∧
      s.path_info_arg = raw.filterMap pathInfoSearch ∧ argsNames raw = .ok s.args_name := by
  unfold parseStmt at hp
  unfold argFragments
  cases h1 : unpack2 (pySplit ')' line) with
  | error e => rw [h1] at hp; simp at hp
  | ok p1 =>
    rcases p1 with ⟨l1, r1⟩
    simp only [h1] at hp ⊢
    cases h2 : unpack2 (pySplit '(' l1) with
    | error e => simp only [h2] at hp; exact Except.noConfusion hp
    | ok p2 =>
      rcases p2 with ⟨fn, argstr⟩
      simp only [h2] at hp ⊢
      cases h3 : argsNames (pySplit ',' argstr) with
      | error e => simp only [h3] at hp; exact Except.noConfusion hp
      | ok ns =>
        simp only [h3] at hp
        simp at hp
        refine ⟨pySplit ',' argstr, rfl, ?_, ?_, ?_⟩
        · rw [← hp]
        · rw [← hp]
        · rw [← hp, h3]

/-- Claim C9: for every emission mode, prefix, and qualifier, the
emitted artifact begins with the fixed two-line header — the
generated-file notice comment followed by the include of
`wasi_vfs_types.h` — before any mode-specific content. -/
theorem c9_fixed_header (mode : Mode) (pre qual : String) (lns : List String) :
    (process mode pre qual lns).1.take 2 =
      ["/* this file is generated by genvfs.sh */", "#include \"wasi_vfs_types.h\""] := rfl

/-- Claim C5: the DispatchBodies emission ignores the caller-supplied
prefix and qualifier: for every signature sequence and any two
(prefix, qualifier) pairs the emitted output is identical, so every
trampoline is named with the fixed `wasi_vfs_` prefix and the output is
a function of the signatures alone. -/
theorem c5_dispatch_prefix_free (lns : List String) (pre1 qual1 pre2 qual2 : String) :
    process Mode.VfsDefine pre1 qual1 lns = process Mode.VfsDefine pre2 qual2 lns := by
  unfold process
  rw [emitLoop_define_pre pre1 pre2]
  rfl

/-- Claim C2: for every signature whose name begins with `path_` and
whose recorded path-info arguments are `ref :: rest`, the emitted
dispatch body is exactly the signature line and opening brace, then one
`if (check_xdev(ref, cand)) return EXDEV;` guard per later path-info
argument `cand` in declaration order — `rest.length = count - 1` of
them — then the single `path_vfs_ops(ref)` lookup and the forwarding
tail call. -/
theorem c2_xdev_guards (line pre : String) (s : Sig) (ref : String) (rest : List String)
    (hp : parseStmt line = .ok s)
    (hpath : startsWithPath s.fn = true)
    (hpi : s.path_info_arg = ref :: rest) :
    processStmt Mode.VfsDefine pre line =
      (["int\nwasi_vfs_" ++ s.fn ++ "(" ++ joinArgs s.args_sig ++ ")", "\x7b"] ++
         rest.flatMap (xdevGuard ref) ++
         ["\tconst struct wasi_vfs_ops *ops = path_vfs_ops(" ++ ref ++ ");",
          "\treturn ops->" ++ s.fn ++ "(" ++ joinArgs s.args_name ++ ");", "\x7d"],
       none) ∧
    rest.length = s.path_info_arg.length - 1 := by
  constructor
  · simp [processStmt, hp, emitSig, hpath, hpi]
  · simp [hpi]

/-- Witness for C2 at the spec example `path_link(struct path_info
*old, struct path_info *new);`. -/
theorem c2_xdev_guards_witness :
    processStmt Mode.VfsDefine "wasi_vfs_"
        "path_link(struct path_info *old, struct path_info *new)" =
      (["int\nwasi_vfs_path_link(struct path_info *old, struct path_info *new)", "\x7b",
        "\tif (check_xdev(old, new)) \x7b", "\t\treturn EXDEV;", "\t\x7d",
        "\tconst struct wasi_vfs_ops *ops = path_vfs_ops(old);",
        "\treturn ops->path_link(old, new);", "\x7d"], none) := by
  have h := (c2_xdev_guards "path_link(struct path_info *old, struct path_info *new)"
    "wasi_vfs_"
    ⟨"path_link", ["struct path_info *old", "struct path_info *new"],
      ["old", "new"], ["old", "new"]⟩
    "old" ["new"] rfl rfl rfl).1
  exact h.trans (by decide)

/-- Claim C3: for every signature whose name does not begin with
`path_`, the emitted dispatch body contains no cross-device guard and
resolves the operations table by literally emitting
`fdinfo_vfs_ops(fdinfo)` — whether or not an `fdinfo` argument exists —
followed by the forwarding call. -/
theorem c3_fd_dispatch (line pre : String) (s : Sig)
    (hp : parseStmt line = .ok s)
    (hpath : startsWithPath s.fn = false) :
    processStmt Mode.VfsDefine pre line =
      (["int\nwasi_vfs_" ++ s.fn ++ "(" ++ joinArgs s.args_sig ++ ")", "\x7b",
        "\tconst struct wasi_vfs_ops *ops = fdinfo_vfs_ops(fdinfo);",
        "\treturn ops->" ++ s.fn ++ "(" ++ joinArgs s.args_name ++ ");", "\x7d"],
       none) := by
  simp [processStmt, hp, emitSig, hpath]

/-- Witness for C3 at the spec example `close(struct path_info
*fdinfo);`, and at a signature with no `fdinfo` argument at all, whose
body still reads `fdinfo_vfs_ops(fdinfo)` unverified. -/
theorem c3_fd_dispatch_witness :
    processStmt Mode.VfsDefine "wasi_vfs_" "close(struct path_info *fdinfo)" =
      (["int\nwasi_vfs_close(struct path_info *fdinfo)", "\x7b",
        "\tconst struct wasi_vfs_ops *ops = fdinfo_vfs_ops(fdinfo);",
        "\treturn ops->close(fdinfo);", "\x7d"], none) ∧
    processStmt Mode.VfsDefine "wasi_vfs_" "read(int fd)" =
      (["int\nwasi_vfs_read(int fd)", "\x7b",
        "\tconst struct wasi_vfs_ops *ops = fdinfo_vfs_ops(fdinfo);",
        "\treturn ops->read(fd);", "\x7d"], none) := by
  constructor
  · have h := c3_fd_dispatch "close(struct path_info *fdinfo)" "wasi_vfs_"
      ⟨"close", ["struct path_info *fdinfo"], ["fdinfo"], ["fdinfo"]⟩ rfl rfl
    exact h.trans (by decide)
  · have h := c3_fd_dispatch "read(int fd)" "wasi_vfs_"
      ⟨"read", ["int fd"], ["fd"], []⟩ rfl rfl
    exact h.trans (by decide)

/-- Claim C10: a signature whose name begins with `path_` but that has
no recorded path-info argument makes the DispatchBodies emission raise
an uncaught IndexError after printing only the signature line and the
opening brace, while the StructDeclaration and PrototypeList modes
process the same signature without error. -/
theorem c10_path_no_pathinfo (line pre : String) (s : Sig)
    (hp : parseStmt line = .ok s)
    (hpath : startsWithPath s.fn = true)
    (hpi : s.path_info_arg = []) :
    processStmt Mode.VfsDefine pre line =
      (["int\nwasi_vfs_" ++ s.fn ++ "(" ++ joinArgs s.args_sig ++ ")", "\x7b"],
       some indexErrMsg) ∧
    (processStmt Mode.VfsStructDecl pre line).2 = none ∧
    (processStmt Mode.VfsPrototype pre line).2 = none := by
  refine ⟨?_, ?_, ?_⟩
  · simp [processStmt, hp, emitSig, hpath, hpi]
  · simp [processStmt, hp, emitSig]
  · simp [processStmt, hp, emitSig]

/-- Witness for C10 at `path_sync(int fd);`. -/
theorem c10_path_no_pathinfo_witness :
    processStmt Mode.VfsDefine "wasi_vfs_" "path_sync(int fd)" =
      (["int\nwasi_vfs_path_sync(int fd)", "\x7b"], some indexErrMsg) ∧
    (processStmt Mode.VfsStructDecl "wasi_vfs_" "path_sync(int fd)").2 = none := by
  have h := c10_path_no_pathinfo "path_sync(int fd)" "wasi_vfs_"
    ⟨"path_sync", ["int fd"], ["fd"], []⟩ rfl rfl rfl
  exact ⟨h.1.trans (by decide), h.2.1⟩

/-- Claim C7: when every statement parses, the StructInitializer
emission wraps its lines in `<qualifier> struct wasi_vfs_ops
<prefix>ops = \x7b ... \x7d;` and emits for each signature exactly one
initializer line `.<name> = <prefix><name>,`, in input order. -/
theorem c7_struct_initializer (lns : List String) (pre qual : String)
    (h : allStmtsOk lns = true) :
    process Mode.VfsStructDefine pre qual lns =
      (headerLines ++ [qual ++ " struct wasi_vfs_ops " ++ pre ++ "ops = \x7b"] ++
         (stmtsOf lns).map (fun l => "\t." ++ fnOf l ++ " = " ++ pre ++ fnOf l ++ ",") ++
         ["\x7d;"],
       none) := by
  unfold process
  rw [emitLoop_structDefine pre lns h]
  rfl

/-- Witness for C7 on a two-signature input with a non-default prefix
and qualifier. -/
theorem c7_struct_initializer_witness :
    process Mode.VfsStructDefine "wasi_host_" "static"
        (linesOf "open(struct path_info *pi);close(int fdinfo);") =
      (["/* this file is generated by genvfs.sh */", "#include \"wasi_vfs_types.h\"",
        "static struct wasi_vfs_ops wasi_host_ops = \x7b",
        "\t.open = wasi_host_open,", "\t.close = wasi_host_close,", "\x7d;"],
       none) := by
  have h := c7_struct_initializer (linesOf "open(struct path_info *pi);close(int fdinfo);")
    "wasi_host_" "static" (by decide)
  exact h.trans (by decide)

/-- Claim C8: the generator is deterministic and its output is a pure
function of the parsed signature sequence together with the mode,
prefix, and qualifier: any two line lists with the same per-statement
parse results give byte-identical `process` output for every mode,
prefix, and qualifier, and any two definition files with the same
parsed statements give identical full-generator runs. -/
theorem c8_pure_function :
    (∀ (mode : Mode) (pre qual : String) (l1 l2 : List String),
        parsedStmts l1 = parsedStmts l2 →
        process mode pre qual l1 = process mode pre qual l2) ∧
    (∀ ca cb : String, parsedStmts (linesOf ca) = parsedStmts (linesOf cb) →
        runGenerator ca = runGenerator cb) := by
  have hp : ∀ (mode : Mode) (pre qual : String) (l1 l2 : List String),
      parsedStmts l1 = parsedStmts l2 →
      process mode pre qual l1 = process mode pre qual l2 := by
    intro mode pre qual l1 l2 h
    unfold process
    rw [emitLoop_eq_parsed, emitLoop_eq_parsed, h]
  refine ⟨hp, ?_⟩
  intro ca cb h
  simp only [runGenerator]
  rw [hp Mode.VfsStructDecl defaultPre defaultQual _ _ h,
    hp Mode.VfsPrototype defaultPre defaultQual _ _ h,
    hp Mode.VfsDefine defaultPre defaultQual _ _ h]

/-- Witness for C8: two byte-different definition files with the same
parsed signatures produce identical outputs. -/
theorem c8_pure_function_witness :
    runGenerator "foo( int x );" = runGenerator "foo(int x);" := by
  exact c8_pure_function.2 "foo( int x );" "foo(int x);" rfl

/-- Counterexample to C4 as stated: for the well-formed input
`foo( int x )` the original argument text is the fragment " int x "
(with its surrounding spaces), but the emitted StructDeclaration member
and PrototypeList declaration carry the whitespace-trimmed text
`int x`, so emission is not byte-for-byte verbatim. -/
theorem c4_counterexample :
    argFragments "foo( int x )" = some [" int x "] ∧
    processStmt Mode.VfsStructDecl "wasi_vfs_" "foo( int x )" =
      (["\tint (*foo)(int x);"], none) ∧
    processStmt Mode.VfsPrototype "wasi_vfs_" "foo( int x )" =
      (["int wasi_vfs_foo(int x);"], none) ∧
    "\tint (*foo)(int x);" ≠ "\tint (*foo)(" ++ joinArgs [" int x "] ++ ");" ∧
    "int wasi_vfs_foo(int x);" ≠ "int wasi_vfs_foo(" ++ joinArgs [" int x "] ++ ");" := by
  refine ⟨by decide, by decide, by decide, by decide, by decide⟩

/-- Claim C4 (amended): for every statement that parses, the
StructDeclaration member and the PrototypeList declaration both carry
the parsed argument list — each original fragment with leading and
trailing whitespace stripped — verbatim and in input order, joined by
a comma and a space, and the two emissions use the identical list. -/
theorem c4_args_verbatim (line pre : String) (s : Sig) (raw : List String)
    (hp : parseStmt line = .ok s)
    (hraw : argFragments line = some raw) :
    s.args_sig = raw.map pythonStrip ∧
    processStmt Mode.VfsStructDecl pre line =
      (["\tint (*" ++ s.fn ++ ")(" ++ joinArgs s.args_sig ++ ");"], none) ∧
    processStmt Mode.VfsPrototype pre line =
      (["int " ++ pre ++ s.fn ++ "(" ++ joinArgs s.args_sig ++ ");"], none) := by
  refine ⟨?_, ?_, ?_⟩
  · obtain ⟨raw2, hr2, hsig, _, _⟩ := parseStmt_args line s hp
    rw [hraw] at hr2
    injection hr2 with hr2
    rw [hsig, hr2]
  · simp [processStmt, hp, emitSig]
  · simp [processStmt, hp, emitSig]

/-- Witness for C4 (amended) at `path_link(struct path_info *old,
struct path_info *new)`, whose second raw fragment carries a leading
space that the emitted text drops. -/
theorem c4_args_verbatim_witness :
    processStmt Mode.VfsStructDecl "wasi_vfs_"
        "path_link(struct path_info *old, struct path_info *new)" =
      (["\tint (*path_link)(struct path_info *old, struct path_info *new);"], none) := by
  have h := c4_args_verbatim "path_link(struct path_info *old, struct path_info *new)"
    "wasi_vfs_"
    ⟨"path_link", ["struct path_info *old", "struct path_info *new"],
      ["old", "new"], ["old", "new"]⟩
    ["struct path_info *old", " struct path_info *new"] rfl rfl
  exact h.2.1.trans (by decide)

/-- Counterexample to C6 as stated: the fragment `123` has no trailing
identifier and the run on `foo(123);` does fail with a non-zero exit,
but the diagnostic is the generic AttributeError raised by calling
`.group()` on `None`, and the offending fragment `123` appears nowhere
in it, so no diagnostic identifying the fragment is produced. -/
theorem c6_counterexample :
    parseStmt "foo(123)" = .error attrErrMsg ∧
    (runGenerator "foo(123);").2 = false ∧
    containsSeq "123".toList attrErrMsg.toList = false := by
  refine ⟨rfl, by decide, by decide⟩

/-- Claim C6 (amended): for every argument fragment lacking a trailing
identifier (including the empty fragment produced by an empty argument
list), the run fails fatally and unrecoverably and the process exits
non-zero; the diagnostic, however, is the fixed generic AttributeError
message, which does not identify the offending fragment. -/
theorem c6_bad_fragment_fatal (content line : String) (args : List String)
    (hmem : line ∈ linesOf content)
    (hargs : argFragments (pythonStrip line) = some args)
    (hbad : ∃ a ∈ args, nameSearch (pythonStrip a) = none) :
    parseStmt (pythonStrip line) = .error attrErrMsg ∧
    (runGenerator content).2 = false := by
  have hpe := parseStmt_fail_of_badArg (pythonStrip line) args hargs hbad
  refine ⟨hpe, ?_⟩
  have hne : pythonStrip line ≠ "" := by
    intro hc
    rw [hc] at hargs
    rw [show argFragments "" = none from rfl] at hargs
    exact Option.noConfusion hargs
  have hf : (processStmt Mode.VfsStructDecl defaultPre (pythonStrip line)).2.isSome = true := by
    simp [processStmt, hpe]
  have hloop := emitLoop_fail_of_mem Mode.VfsStructDecl defaultPre hmem hne hf
  have h2 : (process Mode.VfsStructDecl defaultPre defaultQual (linesOf content)).2.isSome
      = true := hloop
  simp only [runGenerator]
  simp [h2]

/-- Witness for C6 (amended) at the empty argument list `name();`. -/
theorem c6_bad_fragment_fatal_witness :
    parseStmt (pythonStrip "name()") = .error attrErrMsg ∧
    (runGenerator "name();").2 = false := by
  exact c6_bad_fragment_fatal "name();" "name()" [""] (by decide) rfl ⟨"", by decide, rfl⟩

/-- Counterexample to C1 as stated: on the input `bad_stmt_no_parens`
the run does abort, but not before `wasi_vfs_ops.h` has been created
and filled with the two header lines and the struct opener — a partial
output file exists, so the run is not all-or-nothing and does not abort
before any output file is created. -/
theorem c1_counterexample :
    runGenerator "bad_stmt_no_parens" =
      ([("wasi_vfs_ops.h",
         ["/* this file is generated by genvfs.sh */", "#include \"wasi_vfs_types.h\"",
          "struct wasi_vfs_ops \x7b"])], false) ∧
    (runGenerator "bad_stmt_no_parens").1 ≠ [] := by
  refine ⟨by decide, by decide⟩

/-- Claim C1 (amended): the run is not all-or-nothing.  It fails
fatally on malformed input, but each output file is created the moment
its with-open block is entered, so files opened before the failure
remain: the created file names always form a nonempty prefix of the
three required output names, in order; when the run succeeds all three
are created, but all three may also exist on a failing run, the file
being written when the error is raised keeping its partial content —
for `path_sync(int fd);` all three files are created and the run still
fails.  For `bad_stmt_no_parens` the run aborts leaving
`wasi_vfs_ops.h` holding the header lines and the struct opener, with
the other two files never created. -/
theorem c1_abort_partial_output (content : String) :
    (∃ k, 1 ≤ k ∧ k ≤ 3 ∧
      (runGenerator content).1.map Prod.fst = outputNames.take k ∧
      ((runGenerator content).2 = true → k = 3)) ∧
    runGenerator "bad_stmt_no_parens" =
      ([("wasi_vfs_ops.h", headerLines ++ ["struct wasi_vfs_ops \x7b"])], false) ∧
    (runGenerator "path_sync(int fd);").1.map Prod.fst = outputNames ∧
    (runGenerator "path_sync(int fd);").2 = false := by
  refine ⟨?_, by decide, by decide, by decide⟩
  simp only [runGenerator]
  by_cases h1 :
      (process Mode.VfsStructDecl defaultPre defaultQual (linesOf content)).2.isSome = true
  · refine ⟨1, by norm_num, by norm_num, ?_, ?_⟩
    · simp [h1, outputNames]
    · simp [h1]
  · by_cases h2 :
        (process Mode.VfsPrototype defaultPre defaultQual (linesOf content)).2.isSome = true
    · refine ⟨2, by norm_num, by norm_num, ?_, ?_⟩
      · simp [h1, h2, outputNames]
      · simp [h1, h2]
    · exact ⟨3, by norm_num, by norm_num, by simp [h1, h2, outputNames], fun _ => rfl⟩

/-- Witness for C1 (amended): the concrete abort on
`bad_stmt_no_parens`, and the failing run of `path_sync(int fd);` that
nevertheless created all three files. -/
theorem c1_abort_partial_output_witness :
    runGenerator "bad_stmt_no_parens" =
      ([("wasi_vfs_ops.h", headerLines ++ ["struct wasi_vfs_ops \x7b"])], false) ∧
    (runGenerator "path_sync(int fd);").1.map Prod.fst = outputNames ∧
    (runGenerator "path_sync(int fd);").2 = false := by
  exact (c1_abort_partial_output "bad_stmt_no_parens").2

end Genvfs
